import Mathlib

/-!
Verification of the REDMANE data-access API (`main_postgresql.py`).

The file shallowly embeds the row-to-nested-object assembly logic and the
store-facing handlers of the repository.  SQL query results are modelled as
lists of row structures — one structure per query shape, with one field per
column name the driver actually delivers: `RealDictCursor` keys each row
dict by the column names PostgreSQL returns, so an unaliased duplicate name
is shadowed by the later column and a `table.column` spelling is not a key
at all.  A dict lookup of an absent key is modelled as an explicit
`KeyError` result (`PyResult.keyError`), since `except psycopg2.Error` does
not catch `KeyError` and the request fails.  The PostgreSQL tables touched
by the handlers are modelled as lists of row structures inside a `Store`
value.  Python truthiness tests are modelled explicitly (`None` and `0` are
falsy for nullable integers, `""` is falsy for strings).
-/

namespace Redmane

/-- Result of running a piece of the assembly code: a value, or an uncaught
`KeyError` for the named missing dict key.  `except psycopg2.Error` does not
catch `KeyError`, so such a request fails with an internal server error. -/
inductive PyResult (α : Type) where
  | ok (value : α)
  | keyError (key : String)
deriving DecidableEq, Repr

/-- Python truthiness of a nullable integer column: `None` and `0` are
falsy.  Both grouping loops guard the child append with `if row[...]:` on a
metadata id column. -/
def truthyId : Option Int → Bool
  | none => false
  | some n => n != 0

/-! ## The grouping pass of `get_patients_metadata` (lines 194-247)

The query at lines 201-217 selects `p.id, p.project_id, p.ext_patient_id,
p.ext_patient_url, p.public_patient_id, pm.id, pm.key, pm.value` without
aliases.  PostgreSQL names those columns `id, project_id, ext_patient_id,
ext_patient_url, public_patient_id, id, key, value`, and `RealDictCursor`
keeps the *last* column of a duplicated name, so the row dict's single `id`
key holds `pm.id` — NULL for a childless patient — and the keys `'pm.id'`,
`'pm.key'`, `'pm.value'` that lines 238-243 read do not exist. -/

/-- One row dict of the patients/patients_metadata join as `RealDictCursor`
actually delivers it: `id` is the shadowing `pm.id` column (nullable from
the LEFT JOIN), and the metadata key/value columns arrive under the plain
names `key`/`value`. -/
structure PatientDictRow where
  id : Option Int
  project_id : Int
  ext_patient_id : String
  ext_patient_url : String
  public_patient_id : Option String
  key : Option String
  value : Option String
deriving DecidableEq, Repr

/-- The metadata dict lines 239-244 would build (never completed: its
construction is guarded by the lookup that raises). -/
structure PatientMetaDictPy where
  id : Option Int
  patient_id : Option Int
  key : Option String
  value : Option String
deriving DecidableEq, Repr

/-- The sample record the per-patient sub-loop (lines 261-280) would
append; the pass under study leaves the list empty. -/
structure PatientSampleDictPy where
  id : Option Int
  patient_id : Option Int
  ext_sample_id : String
  ext_sample_url : String
deriving DecidableEq, Repr

/-- The accumulator dict of lines 228-236: `'id': row['id']` stores the
shadowed `pm.id` column, not the patient id. -/
structure PatientAccumPy where
  id : Option Int
  project_id : Int
  ext_patient_id : String
  ext_patient_url : String
  public_patient_id : Option String
  samples : List PatientSampleDictPy
  metadata : List PatientMetaDictPy
deriving DecidableEq, Repr

/-- Seed a fresh accumulator from a row dict (lines 228-236). -/
def mkPatientAccumPy (row : PatientDictRow) : PatientAccumPy :=
  { id := row.id
    project_id := row.project_id
    ext_patient_id := row.ext_patient_id
    ext_patient_url := row.ext_patient_url
    public_patient_id := row.public_patient_id
    samples := []
    metadata := [] }

/-- The grouping pass of `get_patients_metadata` (lines 221-247) over the
dict rows the driver delivers.  With zero rows the loop body never runs and
the close-out returns the empty list.  Otherwise the first iteration runs
lines 224-236 — no accumulator exists yet, so one is seeded from the row's
existing keys — and then line 238 evaluates `if row['pm.id']:`.  The dict's
keys are `id, project_id, ext_patient_id, ext_patient_url,
public_patient_id, key, value`, so the lookup raises `KeyError: 'pm.id'` on
this very first row and no later iteration is reached. -/
def assemblePatientsPy (rows : List PatientDictRow) :
    PyResult (List PatientAccumPy) :=
  match rows with
  | [] => .ok []
  | row :: _rest =>
    let _current_patient := mkPatientAccumPy row
    .keyError "pm.id"

/-! ## The grouping pass of `get_samples_per_patient` (lines 290-354)

The query at lines 297-317 aliases `s.id AS sample_id` and `sm.id AS
metadata_id` but leaves `sm.key, sm.value` unaliased (delivered as
`key`/`value`), and selects both `s.patient_id` and `p.id AS patient_id` —
the later shadows the former, and the two are equal under the join
condition `s.patient_id = p.id` (the WHERE clause on `p.project_id` forces
the patient row to exist).  Lines 347-348 read `row['sm.key']` and
`row['sm.value']`, keys the dict does not have. -/

/-- One row dict of the samples/samples_metadata/patients join as
`RealDictCursor` delivers it. -/
structure SampleDictRow where
  sample_id : Int
  patient_id : Int
  ext_sample_id : String
  ext_sample_url : String
  metadata_id : Option Int
  key : Option String
  value : Option String
  project_id : Int
  ext_patient_id : String
  ext_patient_url : String
  public_patient_id : Option String
deriving DecidableEq, Repr

/-- The embedded patient dict of a sample accumulator (lines 334-340). -/
structure PatientInfoPy where
  id : Int
  project_id : Int
  ext_patient_id : String
  ext_patient_url : String
  public_patient_id : Option String
deriving DecidableEq, Repr

/-- The metadata dict lines 344-349 would build (never completed: reading
`row['sm.key']` raises first). -/
structure SampleMetaDictPy where
  id : Option Int
  sample_id : Int
  key : Option String
  value : Option String
deriving DecidableEq, Repr

/-- The sample accumulator of lines 328-341. -/
structure SampleAccumPy where
  id : Int
  patient_id : Int
  ext_sample_id : String
  ext_sample_url : String
  metadata : List SampleMetaDictPy
  patient : PatientInfoPy
deriving DecidableEq, Repr

/-- Seed a fresh sample accumulator from a row dict (lines 328-341). -/
def mkSampleAccumPy (row : SampleDictRow) : SampleAccumPy :=
  { id := row.sample_id
    patient_id := row.patient_id
    ext_sample_id := row.ext_sample_id
    ext_sample_url := row.ext_sample_url
    metadata := []
    patient :=
      { id := row.patient_id
        project_id := row.project_id
        ext_patient_id := row.ext_patient_id
        ext_patient_url := row.ext_patient_url
        public_patient_id := row.public_patient_id } }

/-- The loop body of lines 324-349 once an accumulator exists, plus the
close-out of lines 351-352.  The open/compare/seed steps use existing keys
(`sample_id`, line 325), and the metadata append is guarded by
`if row['metadata_id']:` (line 343, an aliased and hence present key) — but
its body reads `row['sm.key']` (line 347), a key the dict does not have, so
the first row carrying a truthy `metadata_id` raises `KeyError: 'sm.key'`
and the whole pass fails; rows with a falsy `metadata_id` assemble
normally. -/
def assembleSamplesLoopPy (cur : SampleAccumPy) :
    List SampleDictRow → PyResult (List SampleAccumPy)
  | [] => .ok [cur]
  | row :: rest =>
    if cur.id ≠ row.sample_id then
      if truthyId row.metadata_id then .keyError "sm.key"
      else
        match assembleSamplesLoopPy (mkSampleAccumPy row) rest with
        | .ok out => .ok (cur :: out)
        | .keyError k => .keyError k
    else
      if truthyId row.metadata_id then .keyError "sm.key"
      else assembleSamplesLoopPy cur rest

/-- The whole grouping pass of `get_samples_per_patient` (lines 322-352):
`current_sample` starts absent and the first row seeds it (then runs the
same guarded metadata append). -/
def assembleSamplesPy : List SampleDictRow → PyResult (List SampleAccumPy)
  | [] => .ok []
  | row :: rest =>
    if truthyId row.metadata_id then .keyError "sm.key"
    else assembleSamplesLoopPy (mkSampleAccumPy row) rest

/-! ## The relational store

The tables the handlers touch, modelled as lists of rows in physical order
(the order `SELECT` without `ORDER BY` scans them in, and the order `INSERT`
appends in).  `files_next_id` is the sequence backing `files.id`. -/

structure PatientRow where
  id : Int
  project_id : Int
  ext_patient_id : String
  ext_patient_url : String
  public_patient_id : Option String
deriving DecidableEq, Repr

structure SampleRow where
  id : Int
  patient_id : Int
  ext_sample_id : String
  ext_sample_url : String
deriving DecidableEq, Repr

structure SampleMetaRow where
  id : Int
  sample_id : Int
  key : String
  value : String
deriving DecidableEq, Repr

structure FileRow where
  id : Int
  dataset_id : Int
  path : String
  file_type : String
deriving DecidableEq, Repr

structure FileMetaRow where
  raw_file_id : Int
  metadata_key : String
  metadata_value : String
deriving DecidableEq, Repr

structure DatasetRow where
  id : Int
  project_id : Int
  name : String
deriving DecidableEq, Repr

structure DatasetMetaRow where
  id : Int
  dataset_id : Int
  key : String
  value : String
deriving DecidableEq, Repr

structure Store where
  patients : List PatientRow
  samples : List SampleRow
  samples_metadata : List SampleMetaRow
  files : List FileRow
  files_metadata : List FileMetaRow
  files_next_id : Int
  datasets : List DatasetRow
  datasets_metadata : List DatasetMetaRow
deriving DecidableEq, Repr

/-- A store with no rows at all. -/
def emptyStore : Store :=
  { patients := [], samples := [], samples_metadata := [], files := []
    files_metadata := [], files_next_id := 1, datasets := []
    datasets_metadata := [] }

/-- Outcome of the store layer for one request: `psycopg2.connect` can raise
while acquiring the connection, a statement can raise during execution, or
everything succeeds.  Handlers are parameterised by this outcome. -/
inductive StoreEvent where
  | connFail (msg : String)
  | queryFail (msg : String)
  | available
deriving DecidableEq, Repr

/-- What a handler hands back to FastAPI: a value, or an `HTTPException`
with a status code and a detail message. -/
inductive HandlerResult (α : Type) where
  | ok (value : α)
  | httpError (status : Nat) (detail : String)
deriving DecidableEq, Repr

/-! ## `POST /add_raw_files/` (lines 161-191) -/

structure RawFileMetadataCreate where
  metadata_key : String
  metadata_value : String
deriving DecidableEq, Repr

structure RawFileCreate where
  dataset_id : Int
  path : String
  metadata : List RawFileMetadataCreate
deriving DecidableEq, Repr

structure StatusMessage where
  status : String
  message : String
deriving DecidableEq, Repr

/-- Insert one raw file (with `file_type` fixed to `'raw'`) and its metadata
rows (lines 170-184); the file takes the next id of the `files` sequence. -/
def insertRawFile (st : Store) (rf : RawFileCreate) : Store :=
  { st with
    files := st.files ++ [⟨st.files_next_id, rf.dataset_id, rf.path, "raw"⟩]
    files_metadata := st.files_metadata ++
      rf.metadata.map (fun m => ⟨st.files_next_id, m.metadata_key, m.metadata_value⟩)
    files_next_id := st.files_next_id + 1 }

/-- The `POST /add_raw_files/` handler.  A failure inside
`get_db_connection` raises `HTTPException(500, "Database connection error: <e>")`
(line 39), which the handler's `except psycopg2.Error` clause does not catch,
so it propagates as-is; a failing statement is caught at line 190 and becomes
`HTTPException(500, "Database error: <e>")`; on success every file and its
metadata are inserted and a status message is returned (line 188). -/
def add_raw_files (ev : StoreEvent) (st : Store) (raw_files : List RawFileCreate) :
    Store × HandlerResult StatusMessage :=
  match ev with
  | .connFail e => (st, .httpError 500 ("Database connection error: " ++ e))
  | .queryFail e => (st, .httpError 500 ("Database error: " ++ e))
  | .available =>
      (raw_files.foldl insertRawFile st,
       .ok ⟨"success", "Raw files and metadata added successfully"⟩)

/-! ## `GET /datasets_with_metadata/{dataset_id}` (lines 428-465) -/

structure DatasetWithMetadataRec where
  id : Int
  project_id : Int
  name : String
  metadata : List DatasetMetaRow
deriving DecidableEq, Repr

/-- A handler result together with whether `conn.close()` ran on the taken
path before the handler returned or raised. -/
structure TracedResult (α : Type) where
  result : HandlerResult α
  connClosed : Bool
deriving DecidableEq, Repr

/-- The `GET /datasets_with_metadata/{dataset_id}` handler, tracking whether
`conn.close()` (line 453) executes.  The `raise HTTPException(404)` at line
443 happens before line 453 and `except psycopg2.Error` does not catch it, so
the connection is not closed on the 404 path; likewise the translation of a
store failure at line 465 (and the propagated connection-failure exception
from line 39) leaves the connection unclosed. -/
def get_dataset_with_metadata (ev : StoreEvent) (st : Store)
    (dataset_id project_id : Int) : TracedResult DatasetWithMetadataRec :=
  match ev with
  | .connFail e => ⟨.httpError 500 ("Database connection error: " ++ e), false⟩
  | .queryFail e => ⟨.httpError 500 ("Database error: " ++ e), false⟩
  | .available =>
    match st.datasets.find? (fun r => r.id == dataset_id && r.project_id == project_id) with
    | none => ⟨.httpError 404 "Dataset not found", false⟩
    | some row =>
        ⟨.ok { id := row.id, project_id := row.project_id, name := row.name,
               metadata := st.datasets_metadata.filter (fun m => m.dataset_id == dataset_id) },
         true⟩

/-! ## `GET /patients/{patient_id}` (lines 360-394) -/

structure PatientWithSampleCountRec where
  id : Int
  project_id : Int
  ext_patient_id : String
  ext_patient_url : String
  public_patient_id : Option String
  sample_count : Nat
deriving DecidableEq, Repr

/-- Insert a patient row into a list sorted ascending by `id`. -/
def insertById (p : PatientRow) : List PatientRow → List PatientRow
  | [] => [p]
  | q :: l => if p.id ≤ q.id then p :: q :: l else q :: insertById p l

/-- `ORDER BY patients.id` (ascending). -/
def sortById (l : List PatientRow) : List PatientRow := l.foldr insertById []

/-- The row the `GROUP BY patients.id` query (lines 367-375) produces for one
patient: `COUNT(samples.id)` counts the non-null joined sample rows, so a
patient with no samples gets 0. -/
def patientWithCount (st : Store) (p : PatientRow) : PatientWithSampleCountRec :=
  { id := p.id, project_id := p.project_id, ext_patient_id := p.ext_patient_id,
    ext_patient_url := p.ext_patient_url, public_patient_id := p.public_patient_id,
    sample_count := (st.samples.filter (fun s => s.patient_id == p.id)).length }

/-- The `GET /patients/{patient_id}` handler (lines 360-394): the SQL is
scoped to `project_id` only and never mentions `patient_id`. -/
def get_patients (st : Store) (project_id : Int) (patient_id : Int) :
    List PatientWithSampleCountRec :=
  (sortById (st.patients.filter (fun p => p.project_id == project_id))).map
    (patientWithCount st)

/-! ## `GET /raw_files_with_metadata/{dataset_id}` (lines 467-515) -/

/-- Digits-only base-10 parse of a character list. -/
def parseDigits : List Char → Option Nat
  | [] => none
  | c :: cs =>
    if (c :: cs).all (fun ch => ch.isDigit) then
      some ((c :: cs).foldl (fun n ch => 10 * n + (ch.toNat - 48)) 0)
    else none

/-- Parse an integer literal the way both the SQL cast
`metadata_value::integer` and Python's `int()` accept plain decimal strings:
an optional sign followed by at least one digit; anything else is rejected. -/
def pgParseInt (s : String) : Option Int :=
  match s.toList with
  | '-' :: cs => (parseDigits cs).map (fun n => -(n : Int))
  | '+' :: cs => (parseDigits cs).map (fun n => (n : Int))
  | cs => (parseDigits cs).map (fun n => (n : Int))

/-- One flat row of the files/files_metadata/samples join (lines 474-480):
`rf.id, rf.path, rfm.metadata_value AS sample_id, s.ext_sample_id`.  The
`WHERE rfm.metadata_key = 'sample_id'` clause discards the null rows of the
first LEFT JOIN, so only files carrying a 'sample_id' metadata entry
survive; the second LEFT JOIN keeps its row even when no sample matches the
cast value, leaving `ext_sample_id` null. -/
structure RawFileQueryRow where
  id : Int
  path : String
  sample_id : String
  ext_sample_id : Option String
deriving DecidableEq, Repr

/-- The file/metadata pairs scanned by the query of lines 474-480: files of
the dataset joined to their metadata rows with key `'sample_id'`. -/
def rawFileJoinPairs (st : Store) (dataset_id : Int) : List (FileRow × FileMetaRow) :=
  (st.files.filter (fun rf => rf.dataset_id == dataset_id)).flatMap (fun rf =>
    (st.files_metadata.filter (fun m =>
      m.raw_file_id == rf.id && m.metadata_key == "sample_id")).map (fun m => (rf, m)))

/-- The flat row one file/metadata pair contributes: the sample columns come
from the sample (unique by primary key) whose id equals the cast value, or
are null when none matches. -/
def mkRawFileQueryRow (st : Store) (pr : FileRow × FileMetaRow) : RawFileQueryRow :=
  { id := pr.1.id, path := pr.1.path, sample_id := pr.2.metadata_value,
    ext_sample_id :=
      (st.samples.find? (fun s =>
        pgParseInt pr.2.metadata_value == some s.id)).map
        (fun s => s.ext_sample_id) }

/-- The query of lines 474-481: the cast `rfm.metadata_value::integer` makes
the whole statement raise if any scanned 'sample_id' value is not an integer
literal; otherwise each joined pair becomes one flat row. -/
def rawFilesQuery (st : Store) (dataset_id : Int) :
    Except String (List RawFileQueryRow) :=
  if (rawFileJoinPairs st dataset_id).all
      (fun pr => (pgParseInt pr.2.metadata_value).isSome) then
    .ok ((rawFileJoinPairs st dataset_id).map (mkRawFileQueryRow st))
  else .error "invalid input syntax for type integer"

structure RawFileResponse where
  id : Int
  path : String
  sample_id : Option String
  ext_sample_id : Option String
  sample_metadata : Option (List SampleMetaRow)
deriving DecidableEq, Repr

/-- The response-assembly loop of lines 484-510: a row is appended only when
its `sample_id` string is truthy (non-empty); `int(sample_id)` raises on a
non-numeric string (unreachable after a successful query, whose cast already
vetted every value), and the secondary lookup fetches the sample's metadata
rows. -/
def buildRawFileResponses (st : Store) : List RawFileQueryRow →
    Except String (List RawFileResponse)
  | [] => .ok []
  | rf :: rest =>
    if rf.sample_id ≠ "" then
      match pgParseInt rf.sample_id with
      | none => .error "invalid literal for int() with base 10"
      | some n =>
        match buildRawFileResponses st rest with
        | .error e => .error e
        | .ok rs =>
          .ok ({ id := rf.id, path := rf.path, sample_id := some rf.sample_id,
                 ext_sample_id := rf.ext_sample_id,
                 sample_metadata := some (st.samples_metadata.filter
                   (fun m => m.sample_id == n)) } :: rs)
    else buildRawFileResponses st rest

/-- The `GET /raw_files_with_metadata/{dataset_id}` handler (lines 467-515);
an `error` value is a store-layer failure the handler turns into HTTP 500. -/
def get_raw_files_with_metadata (st : Store) (dataset_id : Int) :
    Except String (List RawFileResponse) :=
  match rawFilesQuery st dataset_id with
  | .error e => .error e
  | .ok rows => buildRawFileResponses st rows

/-- Store exhibiting a file whose 'sample_id' metadata resolves to no
existing sample: file 1 in dataset 1 links to sample 999, and the samples
table is empty. -/
def c3Store : Store :=
  { emptyStore with
    files := [⟨1, 1, "f.fastq", "raw"⟩]
    files_metadata := [⟨1, "sample_id", "999"⟩] }

/-- Store exhibiting a file whose 'sample_id' metadata value is the
non-numeric string `"abc"`. -/
def c6Store : Store :=
  { emptyStore with
    files := [⟨1, 1, "g.fastq", "raw"⟩]
    files_metadata := [⟨1, "sample_id", "abc"⟩] }

/-- Store in which file 1's 'sample_id' metadata resolves to the existing
sample 10, and file 2 has no 'sample_id' metadata at all. -/
def c3ResolvedStore : Store :=
  { emptyStore with
    files := [⟨1, 1, "f.fastq", "raw"⟩, ⟨2, 1, "g.fastq", "raw"⟩]
    files_metadata := [⟨1, "sample_id", "10"⟩, ⟨2, "lane", "L001"⟩]
    samples := [⟨10, 1, "extS10", "urlS10"⟩]
    samples_metadata := [⟨100, 10, "tissue", "tumour"⟩] }

/-! ## `PUT /datasets_metadata/size_update` (lines 517-574)

The handler only reads and writes the `datasets_metadata` table, so it is
modelled on that table's rows together with the sequence value backing its
`id` column. -/

structure MetadataUpdate where
  dataset_id : Int
  raw_file_size : String
  last_size_update : String
deriving DecidableEq, Repr

/-- Row predicate of the two `SELECT ... WHERE key = ... AND dataset_id = ...`
statements. -/
def dmMatches (key : String) (dsid : Int) (r : DatasetMetaRow) : Bool :=
  r.key == key && r.dataset_id == dsid

/-- One key's upsert (lines 529-546 for the size key, 550-567 for the
timestamp key): `fetchone` the first row with the key and dataset, update its
value in place by id when present, otherwise insert a fresh row taking the
next sequence id. -/
def upsertKey (key value : String) (dsid : Int)
    (tbl : List DatasetMetaRow) (nextId : Int) : List DatasetMetaRow × Int :=
  match tbl.find? (dmMatches key dsid) with
  | some record =>
      (tbl.map (fun r => if r.id == record.id then { r with value := value } else r),
       nextId)
  | none => (tbl ++ [⟨nextId, dsid, key, value⟩], nextId + 1)

/-- The `PUT /datasets_metadata/size_update` handler (lines 522-574): each of
the two keys is upserted only when its field is truthy (a non-empty string),
and the handler returns its request body (line 572). -/
def update_metadata (u : MetadataUpdate) (tbl : List DatasetMetaRow)
    (nextId : Int) : (List DatasetMetaRow × Int) × MetadataUpdate :=
  let s1 := if u.raw_file_size ≠ "" then
      upsertKey "raw_file_extension_size_of_all_files" u.raw_file_size u.dataset_id
        tbl nextId
    else (tbl, nextId)
  let s2 := if u.last_size_update ≠ "" then
      upsertKey "last_size_update" u.last_size_update u.dataset_id s1.1 s1.2
    else s1
  (s2, u)

/-- Number of `datasets_metadata` rows for a key and dataset. -/
def countDM (tbl : List DatasetMetaRow) (key : String) (dsid : Int) : Nat :=
  (tbl.filter (dmMatches key dsid)).length

/-- Store-level integrity of the `datasets_metadata` table: ids are unique
(primary key) and below the next sequence value. -/
def WellFormedDM (tbl : List DatasetMetaRow) (nextId : Int) : Prop :=
  (tbl.map (fun r => r.id)).Nodup ∧ ∀ r ∈ tbl, r.id < nextId

/-- Store with two patients in project 1, the second without samples. -/
def c7Store : Store :=
  { emptyStore with
    patients := [⟨1, 1, "extP1", "urlP1", none⟩, ⟨2, 1, "extP2", "urlP2", none⟩]
    samples := [⟨10, 1, "extS10", "urlS10"⟩] }


/-! ### C1: the grouping passes crash instead of grouping -/

/-- **C1** (evaluation at the failing inputs): the claim says N consecutive
flat rows with K distinct parents yield K grouped records in first-seen
order, but the program cannot produce them.  The patients pass raises
`KeyError: 'pm.id'` on its very first row — here a single row for patient 1
carrying metadata id 7, where the unaliased query leaves the dict without a
`'pm.id'` key and with `pm.id` shadowing the patient id — and the samples
pass raises `KeyError: 'sm.key'` on any row carrying metadata, such as this
single row for sample 5 with metadata id 11. -/
theorem grouping_pass_raises_key_error :
    assemblePatientsPy [⟨some 7, 1, "extP1", "urlP1", none, some "k", some "v"⟩]
      = .keyError "pm.id"
    ∧ assembleSamplesPy
        [⟨5, 3, "extS5", "urlS5", some 11, some "k", some "v", 1,
          "extP3", "urlP3", none⟩]
      = .keyError "sm.key" :=
  ⟨rfl, rfl⟩

/-! ### C2: the childless-parent row also crashes the patients pass -/

/-- **C2** (evaluation): zero rows do assemble to an empty result in both
passes, and the samples pass does give a childless sample one record with
an empty metadata list (the guarded append is skipped, so the crashing
lookups never run) — but the patients pass raises `KeyError: 'pm.id'` on
the single all-null-child row a childless patient contributes, right after
seeding an accumulator whose `id` is the shadowed NULL `pm.id` column.  So
"the record is included and assembly does not fail" is false of the
program. -/
theorem childless_parent_raises_key_error :
    assemblePatientsPy [] = .ok []
    ∧ assembleSamplesPy [] = .ok []
    ∧ assemblePatientsPy [⟨none, 1, "extP2", "urlP2", none, none, none⟩]
        = .keyError "pm.id"
    ∧ (mkPatientAccumPy ⟨none, 1, "extP2", "urlP2", none, none, none⟩).id = none
    ∧ assembleSamplesPy
        [⟨6, 3, "extS6", "urlS6", none, none, none, 1, "extP3", "urlP3", none⟩]
      = .ok [mkSampleAccumPy
          ⟨6, 3, "extS6", "urlS6", none, none, none, 1, "extP3", "urlP3", none⟩]
    ∧ (mkSampleAccumPy
        ⟨6, 3, "extS6", "urlS6", none, none, none, 1, "extP3", "urlP3", none⟩).metadata
      = [] :=
  ⟨rfl, rfl, rfl, rfl, rfl, rfl⟩

/-! ### C4: connection release on every exit path -/

/-- **C4** (evaluation at the failing input): with an empty datasets table,
`GET /datasets_with_metadata/1?project_id=1` takes the not-found path,
raising 404 — and the connection is *not* closed on that path, contradicting
the claim that every exit path releases the connection. -/
theorem connection_not_closed_on_404 :
    (get_dataset_with_metadata .available emptyStore 1 1).result
      = .httpError 404 "Dataset not found"
    ∧ (get_dataset_with_metadata .available emptyStore 1 1).connClosed = false :=
  ⟨rfl, rfl⟩

/-! ### C5: error message for store-layer failures -/

/-- Counterexample to **C5**: a connection failure surfaces as HTTP 500 with
detail `"Database connection error: <e>"` (raised by `get_db_connection` and
not caught by the handler's `except psycopg2.Error`), which is not of the
claimed form `"Database error: <e>"`. -/
theorem database_error_message_counterexample :
    (add_raw_files (.connFail "could not connect to server") emptyStore []).2
      = .httpError 500 "Database connection error: could not connect to server"
    ∧ "Database connection error: could not connect to server"
      ≠ "Database error: could not connect to server" :=
  ⟨rfl, by decide⟩

/-- **C5 as amended**: both store-failure kinds yield HTTP 500 with the
underlying message passed through verbatim, but under two different
prefixes: query failures produce `"Database error: <detail>"` while
connection-acquisition failures produce `"Database connection error:
<detail>"`. -/
theorem database_error_messages (st : Store) (raw_files : List RawFileCreate)
    (e : String) :
    (add_raw_files (.queryFail e) st raw_files).2
      = .httpError 500 ("Database error: " ++ e)
    ∧ (add_raw_files (.connFail e) st raw_files).2
      = .httpError 500 ("Database connection error: " ++ e) :=
  ⟨rfl, rfl⟩

/-! ### C7: the patients-with-sample-counts endpoint ignores `patient_id` -/

theorem mem_insertById (p x : PatientRow) :
    ∀ l : List PatientRow, x ∈ insertById p l ↔ x = p ∨ x ∈ l := by
  intro l
  induction l with
  | nil => simp [insertById]
  | cons q t ih =>
    by_cases h : p.id ≤ q.id
    · simp only [insertById, if_pos h, List.mem_cons]
    · simp only [insertById, if_neg h, List.mem_cons, ih]
      tauto

theorem mem_sortById (x : PatientRow) :
    ∀ l : List PatientRow, x ∈ sortById l ↔ x ∈ l := by
  intro l
  induction l with
  | nil => simp [sortById]
  | cons q t ih =>
    show x ∈ insertById q (sortById t) ↔ x ∈ q :: t
    rw [mem_insertById, ih]
    simp [List.mem_cons]

/-- **C7**: for a fixed `project_id`, any two `patient_id` values give the
same response; a record is in the response exactly when it is the
sample-counted row of a patient of that project; and a patient with no
samples gets `sample_count = 0`. -/
theorem patients_ignore_patient_id (st : Store) (project_id pid1 pid2 : Int) :
    get_patients st project_id pid1 = get_patients st project_id pid2
    ∧ (∀ rec, rec ∈ get_patients st project_id pid1
        ↔ ∃ p ∈ st.patients, p.project_id = project_id ∧ rec = patientWithCount st p)
    ∧ (∀ p ∈ st.patients, p.project_id = project_id →
        st.samples.filter (fun s => s.patient_id == p.id) = [] →
        (patientWithCount st p).sample_count = 0) := by
  refine ⟨rfl, ?_, ?_⟩
  · intro rec
    unfold get_patients
    rw [List.mem_map]
    constructor
    · rintro ⟨p, hp, rfl⟩
      rw [mem_sortById] at hp
      have hmem := List.mem_filter.mp hp
      exact ⟨p, hmem.1, by simpa using hmem.2, rfl⟩
    · rintro ⟨p, hp, hproj, rfl⟩
      exact ⟨p, (mem_sortById p _).mpr (List.mem_filter.mpr ⟨hp, by simp [hproj]⟩), rfl⟩
  · intro p _ _ hf
    simp [patientWithCount, hf]

/-- Witness for C7: on a concrete store, `patient_id` 0 and 42 agree, the
childless patient 2 is in the response, and its count is 0. -/
theorem patients_ignore_patient_id_witness :
    get_patients c7Store 1 0 = get_patients c7Store 1 42
    ∧ patientWithCount c7Store ⟨2, 1, "extP2", "urlP2", none⟩
        ∈ get_patients c7Store 1 0
    ∧ (patientWithCount c7Store ⟨2, 1, "extP2", "urlP2", none⟩).sample_count = 0 :=
  ⟨(patients_ignore_patient_id c7Store 1 0 42).1,
   ((patients_ignore_patient_id c7Store 1 0 42).2.1 _).mpr
     ⟨⟨2, 1, "extP2", "urlP2", none⟩, by decide, rfl, rfl⟩,
   (patients_ignore_patient_id c7Store 1 0 42).2.2
     ⟨2, 1, "extP2", "urlP2", none⟩ (by decide) rfl (by decide)⟩

/-! ### C3/C6: the raw-files-with-metadata endpoint -/

theorem mem_rawFileJoinPairs (st : Store) (d : Int) (rf : FileRow) (m : FileMetaRow) :
    (rf, m) ∈ rawFileJoinPairs st d
      ↔ rf ∈ st.files ∧ rf.dataset_id = d ∧ m ∈ st.files_metadata
        ∧ m.raw_file_id = rf.id ∧ m.metadata_key = "sample_id" := by
  unfold rawFileJoinPairs
  simp only [List.mem_flatMap, List.mem_map, List.mem_filter, Prod.mk.injEq,
    Bool.and_eq_true, beq_iff_eq]
  constructor
  · rintro ⟨rf', ⟨hrf', hd'⟩, m', ⟨hm', hml', hmk'⟩, h1, h2⟩
    subst h1
    subst h2
    exact ⟨hrf', hd', hm', hml', hmk'⟩
  · rintro ⟨hrf, hd, hm, hlink, hkey⟩
    exact ⟨rf, ⟨hrf, hd⟩, m, ⟨hm, hlink, hkey⟩, rfl, rfl⟩

theorem pgParseInt_empty : pgParseInt "" = none := by decide

theorem buildRawFileResponses_ok (st : Store) :
    ∀ rows : List RawFileQueryRow,
      (∀ r ∈ rows, (pgParseInt r.sample_id).isSome) →
      ∃ resp, buildRawFileResponses st rows = .ok resp
        ∧ resp.map (fun x => x.id) = rows.map (fun r => r.id) := by
  intro rows
  induction rows with
  | nil => intro _; exact ⟨[], rfl, rfl⟩
  | cons rf rest ih =>
    intro h
    have hrf := h rf (List.mem_cons_self _ _)
    obtain ⟨n, hn⟩ := Option.isSome_iff_exists.mp hrf
    have hne : rf.sample_id ≠ "" := by
      intro he
      rw [he, pgParseInt_empty] at hn
      exact Option.noConfusion hn
    obtain ⟨resp, hresp, hids⟩ := ih (fun r hr => h r (List.mem_cons_of_mem _ hr))
    refine ⟨{ id := rf.id, path := rf.path, sample_id := some rf.sample_id,
              ext_sample_id := rf.ext_sample_id,
              sample_metadata := some (st.samples_metadata.filter
                (fun mm => mm.sample_id == n)) } :: resp, ?_, ?_⟩
    · simp only [buildRawFileResponses, if_pos hne, hn, hresp]
    · simp [hids]

/-- Counterexample to **C3**: in `c3Store` the only file carries a
'sample_id' metadata value (999) that matches no sample — the samples table
is empty — yet `GET /raw_files_with_metadata/1` returns that file (with a
null `ext_sample_id` and an empty metadata list) instead of omitting it. -/
theorem raw_files_unresolved_included :
    get_raw_files_with_metadata c3Store 1
      = .ok [{ id := 1, path := "f.fastq", sample_id := some "999",
               ext_sample_id := none, sample_metadata := some [] }]
    ∧ c3Store.samples = [] := ⟨rfl, rfl⟩

/-- **C3 as amended**: when every scanned 'sample_id' value casts to an
integer, the request succeeds and a file appears in the response exactly
when it has a 'sample_id' metadata entry in the files_metadata table (the
`WHERE` clause discards files without one) — resolvability of that value to
an existing sample is *not* required. -/
theorem raw_files_membership (st : Store) (d : Int)
    (hok : ∀ pr ∈ rawFileJoinPairs st d, (pgParseInt pr.2.metadata_value).isSome) :
    ∃ resp, get_raw_files_with_metadata st d = .ok resp
      ∧ ∀ fid : Int,
          (∃ x ∈ resp, x.id = fid)
            ↔ ∃ rf ∈ st.files, rf.dataset_id = d ∧ rf.id = fid
                ∧ ∃ m ∈ st.files_metadata, m.raw_file_id = rf.id
                    ∧ m.metadata_key = "sample_id" := by
  have hall : (rawFileJoinPairs st d).all
      (fun pr => (pgParseInt pr.2.metadata_value).isSome) = true :=
    List.all_eq_true.mpr hok
  have hrows : rawFilesQuery st d
      = .ok ((rawFileJoinPairs st d).map (mkRawFileQueryRow st)) := by
    unfold rawFilesQuery
    rw [if_pos hall]
  have hvals : ∀ r ∈ (rawFileJoinPairs st d).map (mkRawFileQueryRow st),
      (pgParseInt r.sample_id).isSome := by
    intro r hr
    rw [List.mem_map] at hr
    obtain ⟨pr, hpr, rfl⟩ := hr
    exact hok pr hpr
  obtain ⟨resp, hresp, hids⟩ := buildRawFileResponses_ok st _ hvals
  refine ⟨resp, ?_, ?_⟩
  · unfold get_raw_files_with_metadata
    rw [hrows]
    exact hresp
  · intro fid
    have hmem : (∃ x ∈ resp, x.id = fid) ↔ fid ∈ resp.map (fun x => x.id) := by
      simp only [List.mem_map]
    rw [hmem, hids, List.map_map]
    simp only [List.mem_map, Function.comp_apply]
    constructor
    · rintro ⟨pr, hpr, h⟩
      obtain ⟨h1, h2, h3, h4, h5⟩ := (mem_rawFileJoinPairs st d pr.1 pr.2).mp hpr
      exact ⟨pr.1, h1, h2, h, pr.2, h3, h4, h5⟩
    · rintro ⟨rf, hrf, hd, hid, m, hm, hlink, hkey⟩
      exact ⟨(rf, m),
        (mem_rawFileJoinPairs st d rf m).mpr ⟨hrf, hd, hm, hlink, hkey⟩, hid⟩

/-- Witness for the amended C3: on `c3ResolvedStore` every scanned value is
numeric, and the membership characterisation holds. -/
theorem raw_files_membership_witness :
    (∀ pr ∈ rawFileJoinPairs c3ResolvedStore 1,
      (pgParseInt pr.2.metadata_value).isSome)
    ∧ ∃ resp, get_raw_files_with_metadata c3ResolvedStore 1 = .ok resp
      ∧ ∀ fid : Int,
          (∃ x ∈ resp, x.id = fid)
            ↔ ∃ rf ∈ c3ResolvedStore.files, rf.dataset_id = 1 ∧ rf.id = fid
                ∧ ∃ m ∈ c3ResolvedStore.files_metadata, m.raw_file_id = rf.id
                    ∧ m.metadata_key = "sample_id" :=
  ⟨by decide, raw_files_membership c3ResolvedStore 1 (by decide)⟩

/-- **C6**: a file of the requested dataset whose 'sample_id' metadata value
is a non-numeric string makes the whole request fail with a store-level
error (the SQL cast `metadata_value::integer` raises, which the handler
surfaces as HTTP 500); the endpoint never silently returns a result built
from a wrong or skipped join for that value. -/
theorem raw_files_malformed_sample_id_errors (st : Store) (d : Int)
    (rf : FileRow) (m : FileMetaRow)
    (hrf : rf ∈ st.files) (hd : rf.dataset_id = d)
    (hm : m ∈ st.files_metadata) (hlink : m.raw_file_id = rf.id)
    (hkey : m.metadata_key = "sample_id")
    (hbad : pgParseInt m.metadata_value = none) :
    get_raw_files_with_metadata st d
      = .error "invalid input syntax for type integer" := by
  have hpair : (rf, m) ∈ rawFileJoinPairs st d :=
    (mem_rawFileJoinPairs st d rf m).mpr ⟨hrf, hd, hm, hlink, hkey⟩
  have hall : ¬((rawFileJoinPairs st d).all
      (fun pr => (pgParseInt pr.2.metadata_value).isSome) = true) := by
    intro hall
    have hsome := List.all_eq_true.mp hall _ hpair
    rw [hbad] at hsome
    exact absurd hsome (by decide)
  unfold get_raw_files_with_metadata rawFilesQuery
  rw [if_neg hall]

/-- Witness for C6: the store `c6Store` holds a file in dataset 1 whose
'sample_id' metadata value `"abc"` is non-numeric, and the request errors. -/
theorem raw_files_malformed_sample_id_errors_witness :
    (⟨1, 1, "g.fastq", "raw"⟩ : FileRow) ∈ c6Store.files
    ∧ pgParseInt "abc" = none
    ∧ get_raw_files_with_metadata c6Store 1
        = .error "invalid input syntax for type integer" :=
  ⟨by decide, by decide,
   raw_files_malformed_sample_id_errors c6Store 1 ⟨1, 1, "g.fastq", "raw"⟩
     ⟨1, "sample_id", "abc"⟩ (by decide) rfl (by decide) rfl rfl (by decide)⟩

/-! ### C8/C9: the size_update upserts -/

theorem map_eq_self_of_eq {α : Type} (f : α → α) :
    ∀ l : List α, (∀ a ∈ l, f a = a) → l.map f = l := by
  intro l
  induction l with
  | nil => intro _; rfl
  | cons a t ih =>
    intro h
    rw [List.map_cons, h a (List.mem_cons_self _ _),
      ih (fun x hx => h x (List.mem_cons_of_mem _ hx))]

theorem setValue_id (i : Int) (v : String) (r : DatasetMetaRow) :
    (if r.id == i then { r with value := v } else r).id = r.id := by
  split <;> rfl

theorem setValue_key (i : Int) (v : String) (r : DatasetMetaRow) :
    (if r.id == i then { r with value := v } else r).key = r.key := by
  split <;> rfl

theorem setValue_matches (k : String) (d i : Int) (v : String) (r : DatasetMetaRow) :
    dmMatches k d (if r.id == i then { r with value := v } else r)
      = dmMatches k d r := by
  split <;> rfl

theorem find?_setValue (k : String) (d i : Int) (v : String)
    (tbl : List DatasetMetaRow) :
    (tbl.map (fun r => if r.id == i then { r with value := v } else r)).find?
        (dmMatches k d)
      = (tbl.find? (dmMatches k d)).map
          (fun r => if r.id == i then { r with value := v } else r) := by
  rw [List.find?_map]
  have hco : (dmMatches k d) ∘ (fun r => if r.id == i then { r with value := v } else r)
      = dmMatches k d := by
    funext r
    simp only [Function.comp_apply]
    exact setValue_matches k d i v r
  rw [hco]

theorem countDM_setValue (k : String) (d i : Int) (v : String)
    (tbl : List DatasetMetaRow) :
    countDM (tbl.map (fun r => if r.id == i then { r with value := v } else r)) k d
      = countDM tbl k d := by
  unfold countDM
  rw [List.filter_map, List.length_map]
  have hco : (dmMatches k d) ∘ (fun r => if r.id == i then { r with value := v } else r)
      = dmMatches k d := by
    funext r
    simp only [Function.comp_apply]
    exact setValue_matches k d i v r
  rw [hco]

theorem upsertKey_wf (k v : String) (d : Int) (tbl : List DatasetMetaRow)
    (n : Int) (hwf : WellFormedDM tbl n) :
    WellFormedDM (upsertKey k v d tbl n).1 (upsertKey k v d tbl n).2 := by
  obtain ⟨hnd, hlt⟩ := hwf
  cases hfind : tbl.find? (dmMatches k d) with
  | some record =>
    simp only [upsertKey, hfind]
    refine ⟨?_, ?_⟩
    · have hids : (tbl.map (fun r => if r.id == record.id then { r with value := v } else r)).map
          (fun r => r.id) = tbl.map (fun r => r.id) := by
        rw [List.map_map]
        have hco : (fun r : DatasetMetaRow => r.id)
            ∘ (fun r => if r.id == record.id then { r with value := v } else r)
            = fun r => r.id := by
          funext r
          simp only [Function.comp_apply]
          exact setValue_id record.id v r
        rw [hco]
      rw [hids]
      exact hnd
    · intro r hr
      rw [List.mem_map] at hr
      obtain ⟨r0, hr0, rfl⟩ := hr
      rw [setValue_id]
      exact hlt r0 hr0
  | none =>
    simp only [upsertKey, hfind]
    refine ⟨?_, ?_⟩
    · rw [List.map_append, List.nodup_append]
      refine ⟨hnd, List.nodup_singleton _, ?_⟩
      intro a ha hb
      simp only [List.map_cons, List.map_nil, List.mem_singleton] at hb
      rw [List.mem_map] at ha
      obtain ⟨r0, hr0, ha⟩ := ha
      have := hlt r0 hr0
      rw [← ha] at hb
      omega
    · intro r hr
      rw [List.mem_append] at hr
      rcases hr with h | h
      · have := hlt r h
        omega
      · rw [List.mem_singleton] at h
        subst h
        show n < n + 1
        omega

theorem upsertKey_found_id (k v : String) (d : Int) (tbl : List DatasetMetaRow)
    (n : Int) (record : DatasetMetaRow)
    (hnd : (tbl.map (fun r => r.id)).Nodup)
    (hfind : tbl.find? (dmMatches k d) = some record) (hv : record.value = v) :
    upsertKey k v d tbl n = (tbl, n) := by
  simp only [upsertKey, hfind]
  have hrecmem := List.mem_of_find?_eq_some hfind
  have hmap : tbl.map (fun r => if r.id == record.id then { r with value := v } else r)
      = tbl := by
    apply map_eq_self_of_eq
    intro r hr
    by_cases h : r.id = record.id
    · have heq : r = record := List.inj_on_of_nodup_map hnd hr hrecmem h
      subst heq
      rw [if_pos (by simp), ← hv]
    · rw [if_neg (by simp [h])]
  rw [hmap]

theorem find?_upsertKey_self (k v : String) (d : Int) (tbl : List DatasetMetaRow)
    (n : Int) :
    ∃ record, (upsertKey k v d tbl n).1.find? (dmMatches k d) = some record
      ∧ record.value = v := by
  cases hfind : tbl.find? (dmMatches k d) with
  | some r0 =>
    refine ⟨{ r0 with value := v }, ?_, rfl⟩
    simp only [upsertKey, hfind]
    rw [find?_setValue, hfind]
    simp
  | none =>
    refine ⟨⟨n, d, k, v⟩, ?_, rfl⟩
    simp only [upsertKey, hfind]
    rw [List.find?_append, hfind, Option.none_or]
    rw [List.find?_cons_of_pos _ (by simp [dmMatches])]

theorem find?_upsertKey_other (k k' v : String) (d d' : Int)
    (tbl : List DatasetMetaRow) (n : Int)
    (hnd : (tbl.map (fun r => r.id)).Nodup) (hkk : k ≠ k') :
    (upsertKey k' v d' tbl n).1.find? (dmMatches k d)
      = tbl.find? (dmMatches k d) := by
  cases hfind : tbl.find? (dmMatches k' d') with
  | some record =>
    simp only [upsertKey, hfind]
    rw [find?_setValue]
    cases hfind2 : tbl.find? (dmMatches k d) with
    | none => rfl
    | some r1 =>
      have hr1mem := List.mem_of_find?_eq_some hfind2
      have hrecmem := List.mem_of_find?_eq_some hfind
      have hr1k : r1.key = k := by
        have := List.find?_some hfind2
        simp only [dmMatches, Bool.and_eq_true, beq_iff_eq] at this
        exact this.1
      have hreck : record.key = k' := by
        have := List.find?_some hfind
        simp only [dmMatches, Bool.and_eq_true, beq_iff_eq] at this
        exact this.1
      have hne : ¬(r1.id == record.id) = true := by
        intro hbeq
        have hid : r1.id = record.id := by simpa using hbeq
        have heq : r1 = record := List.inj_on_of_nodup_map hnd hr1mem hrecmem hid
        rw [heq, hreck] at hr1k
        exact hkk hr1k.symm
      have hne2 : r1.id ≠ record.id := fun hid => hne (by simpa using hid)
      simp [hne2]
  | none =>
    simp only [upsertKey, hfind]
    rw [List.find?_append]
    have hnew : List.find? (dmMatches k d) [⟨n, d', k', v⟩] = none := by
      simp [dmMatches, Ne.symm hkk]
    rw [hnew, Option.or_none]

theorem countDM_upsertKey_self (k v : String) (d : Int)
    (tbl : List DatasetMetaRow) (n : Int) :
    countDM (upsertKey k v d tbl n).1 k d
      = if countDM tbl k d = 0 then 1 else countDM tbl k d := by
  cases hfind : tbl.find? (dmMatches k d) with
  | some record =>
    simp only [upsertKey, hfind]
    rw [countDM_setValue]
    have hpos : countDM tbl k d ≠ 0 := by
      have hmem : record ∈ tbl.filter (dmMatches k d) :=
        List.mem_filter.mpr ⟨List.mem_of_find?_eq_some hfind, List.find?_some hfind⟩
      intro h0
      unfold countDM at h0
      rw [List.length_eq_zero] at h0
      rw [h0] at hmem
      exact absurd hmem (List.not_mem_nil _)
    rw [if_neg hpos]
  | none =>
    simp only [upsertKey, hfind]
    have h0 : tbl.filter (dmMatches k d) = [] :=
      List.filter_eq_nil_iff.mpr (fun a ha => by
        have := List.find?_eq_none.mp hfind a ha
        simpa using this)
    have hc0 : countDM tbl k d = 0 := by
      unfold countDM
      rw [h0]
      rfl
    rw [hc0, if_pos rfl]
    unfold countDM
    rw [List.filter_append, h0]
    have : List.filter (dmMatches k d) [⟨n, d, k, v⟩] = [⟨n, d, k, v⟩] := by
      simp [dmMatches]
    rw [this]
    rfl

theorem countDM_upsertKey_other (k k' v : String) (d d' : Int)
    (tbl : List DatasetMetaRow) (n : Int) (hkk : k ≠ k') :
    countDM (upsertKey k' v d' tbl n).1 k d = countDM tbl k d := by
  cases hfind : tbl.find? (dmMatches k' d') with
  | some record =>
    simp only [upsertKey, hfind]
    exact countDM_setValue k d record.id v tbl
  | none =>
    simp only [upsertKey, hfind]
    unfold countDM
    rw [List.filter_append]
    have hnew : List.filter (dmMatches k d) [⟨n, d', k', v⟩] = [] := by
      simp [dmMatches, Ne.symm hkk]
    rw [hnew, List.append_nil]

theorem filterKey_upsertKey_other (k k' v : String) (d : Int)
    (tbl : List DatasetMetaRow) (n : Int)
    (hnd : (tbl.map (fun r => r.id)).Nodup) (hkk : k' ≠ k) :
    (upsertKey k v d tbl n).1.filter (fun r => r.key == k')
      = tbl.filter (fun r => r.key == k') := by
  cases hfind : tbl.find? (dmMatches k d) with
  | none =>
    simp only [upsertKey, hfind]
    rw [List.filter_append]
    have hnew : List.filter (fun r => r.key == k')
        ([⟨n, d, k, v⟩] : List DatasetMetaRow) = [] := by
      simp [Ne.symm hkk]
    rw [hnew, List.append_nil]
  | some record =>
    simp only [upsertKey, hfind]
    have hrecmem := List.mem_of_find?_eq_some hfind
    have hreck : record.key = k := by
      have := List.find?_some hfind
      simp only [dmMatches, Bool.and_eq_true, beq_iff_eq] at this
      exact this.1
    rw [List.filter_map]
    have hco : ((fun r : DatasetMetaRow => r.key == k')
        ∘ (fun r => if r.id == record.id then { r with value := v } else r))
        = fun r => r.key == k' := by
      funext r
      simp only [Function.comp_apply]
      rw [setValue_key]
    rw [hco]
    apply map_eq_self_of_eq
    intro r hr
    have hrmem := List.mem_of_mem_filter hr
    have hrk : r.key = k' := by simpa using List.of_mem_filter hr
    have hne : ¬(r.id == record.id) = true := by
      intro hbeq
      have hid : r.id = record.id := by simpa using hbeq
      have heq : r = record := List.inj_on_of_nodup_map hnd hrmem hrecmem hid
      rw [heq, hreck] at hrk
      exact hkk hrk.symm
    simp [hne]

theorem double_upsert_idem (k1 k2 v1 v2 : String) (d : Int)
    (tbl : List DatasetMetaRow) (n : Int)
    (hkk : k1 ≠ k2) (hwf : WellFormedDM tbl n) :
    upsertKey k1 v1 d
        (upsertKey k2 v2 d (upsertKey k1 v1 d tbl n).1 (upsertKey k1 v1 d tbl n).2).1
        (upsertKey k2 v2 d (upsertKey k1 v1 d tbl n).1 (upsertKey k1 v1 d tbl n).2).2
      = upsertKey k2 v2 d (upsertKey k1 v1 d tbl n).1 (upsertKey k1 v1 d tbl n).2
    ∧ upsertKey k2 v2 d
        (upsertKey k2 v2 d (upsertKey k1 v1 d tbl n).1 (upsertKey k1 v1 d tbl n).2).1
        (upsertKey k2 v2 d (upsertKey k1 v1 d tbl n).1 (upsertKey k1 v1 d tbl n).2).2
      = upsertKey k2 v2 d (upsertKey k1 v1 d tbl n).1 (upsertKey k1 v1 d tbl n).2 := by
  have hwf1 := upsertKey_wf k1 v1 d tbl n hwf
  have hwf2 := upsertKey_wf k2 v2 d _ _ hwf1
  obtain ⟨r1, hr1find, hr1val⟩ := find?_upsertKey_self k1 v1 d tbl n
  have hfind1 : (upsertKey k2 v2 d (upsertKey k1 v1 d tbl n).1
      (upsertKey k1 v1 d tbl n).2).1.find? (dmMatches k1 d) = some r1 := by
    rw [find?_upsertKey_other k1 k2 v2 d d _ _ hwf1.1 hkk]
    exact hr1find
  obtain ⟨r2, hr2find, hr2val⟩ :=
    find?_upsertKey_self k2 v2 d (upsertKey k1 v1 d tbl n).1 (upsertKey k1 v1 d tbl n).2
  exact ⟨upsertKey_found_id k1 v1 d _ _ r1 hwf2.1 hfind1 hr1val,
         upsertKey_found_id k2 v2 d _ _ r2 hwf2.1 hr2find hr2val⟩

/-- **C8**: calling size_update twice with the same dataset_id and the same
non-empty values is idempotent on the store — the second call leaves the
table and the id sequence exactly as the first call left them — and, from a
table holding at most one row per upserted key for that dataset (the claim's
"the existing row"), the table afterwards holds exactly one row per upserted
key for that dataset. -/
theorem size_update_idempotent (tbl : List DatasetMetaRow) (nextId : Int)
    (u : MetadataUpdate)
    (h1 : u.raw_file_size ≠ "") (h2 : u.last_size_update ≠ "")
    (hwf : WellFormedDM tbl nextId)
    (hc1 : countDM tbl "raw_file_extension_size_of_all_files" u.dataset_id ≤ 1)
    (hc2 : countDM tbl "last_size_update" u.dataset_id ≤ 1) :
    (update_metadata u (update_metadata u tbl nextId).1.1
        (update_metadata u tbl nextId).1.2).1
      = (update_metadata u tbl nextId).1
    ∧ countDM (update_metadata u tbl nextId).1.1
        "raw_file_extension_size_of_all_files" u.dataset_id = 1
    ∧ countDM (update_metadata u tbl nextId).1.1
        "last_size_update" u.dataset_id = 1 := by
  have e1 : (update_metadata u tbl nextId).1
      = upsertKey "last_size_update" u.last_size_update u.dataset_id
          (upsertKey "raw_file_extension_size_of_all_files" u.raw_file_size
            u.dataset_id tbl nextId).1
          (upsertKey "raw_file_extension_size_of_all_files" u.raw_file_size
            u.dataset_id tbl nextId).2 := by
    simp only [update_metadata, if_pos h1, if_pos h2]
  obtain ⟨hid1, hid2⟩ := double_upsert_idem "raw_file_extension_size_of_all_files"
    "last_size_update" u.raw_file_size u.last_size_update u.dataset_id tbl nextId
    (by decide) hwf
  refine ⟨?_, ?_, ?_⟩
  · rw [e1]
    simp only [update_metadata, if_pos h1, if_pos h2]
    rw [hid1]
    exact hid2
  · rw [e1,
      countDM_upsertKey_other "raw_file_extension_size_of_all_files"
        "last_size_update" u.last_size_update u.dataset_id u.dataset_id _ _ (by decide),
      countDM_upsertKey_self]
    cases Nat.eq_zero_or_pos (countDM tbl "raw_file_extension_size_of_all_files" u.dataset_id) with
    | inl h => rw [if_pos h]
    | inr h =>
      rw [if_neg (Nat.pos_iff_ne_zero.mp h)]
      omega
  · rw [e1, countDM_upsertKey_self]
    rw [countDM_upsertKey_other "last_size_update"
      "raw_file_extension_size_of_all_files" u.raw_file_size u.dataset_id u.dataset_id
      tbl nextId (by decide)]
    cases Nat.eq_zero_or_pos (countDM tbl "last_size_update" u.dataset_id) with
    | inl h => rw [if_pos h]
    | inr h =>
      rw [if_neg (Nat.pos_iff_ne_zero.mp h)]
      omega

/-- Witness for C8: upserting `{dataset_id := 1, raw_file_size := "123",
last_size_update := "2024-06-01"}` twice into an empty table. -/
theorem size_update_idempotent_witness :
    ((⟨1, "123", "2024-06-01"⟩ : MetadataUpdate).raw_file_size ≠ ""
      ∧ (⟨1, "123", "2024-06-01"⟩ : MetadataUpdate).last_size_update ≠ "")
    ∧ ((update_metadata ⟨1, "123", "2024-06-01"⟩
          (update_metadata ⟨1, "123", "2024-06-01"⟩ [] 1).1.1
          (update_metadata ⟨1, "123", "2024-06-01"⟩ [] 1).1.2).1
        = (update_metadata ⟨1, "123", "2024-06-01"⟩ [] 1).1
      ∧ countDM (update_metadata ⟨1, "123", "2024-06-01"⟩ [] 1).1.1
          "raw_file_extension_size_of_all_files" 1 = 1
      ∧ countDM (update_metadata ⟨1, "123", "2024-06-01"⟩ [] 1).1.1
          "last_size_update" 1 = 1) :=
  ⟨⟨by decide, by decide⟩,
    size_update_idempotent [] 1 ⟨1, "123", "2024-06-01"⟩ (by decide) (by decide)
      ⟨by decide, by decide⟩ (by decide) (by decide)⟩

/-- **C9**: an empty-string field skips that key's upsert: with an empty
`raw_file_size` every row with key `'raw_file_extension_size_of_all_files'`
is left untouched while the `'last_size_update'` upsert (if its field is
non-empty) still takes place on the original table — and symmetrically. -/
theorem size_update_independent_keys (tbl : List DatasetMetaRow) (nextId : Int)
    (u : MetadataUpdate) (hwf : WellFormedDM tbl nextId) :
    (u.raw_file_size = "" →
      ((update_metadata u tbl nextId).1.1.filter
          (fun r => r.key == "raw_file_extension_size_of_all_files")
        = tbl.filter (fun r => r.key == "raw_file_extension_size_of_all_files"))
      ∧ (u.last_size_update ≠ "" →
          (update_metadata u tbl nextId).1
            = upsertKey "last_size_update" u.last_size_update u.dataset_id tbl nextId))
    ∧ (u.last_size_update = "" →
      ((update_metadata u tbl nextId).1.1.filter (fun r => r.key == "last_size_update")
        = tbl.filter (fun r => r.key == "last_size_update"))
      ∧ (u.raw_file_size ≠ "" →
          (update_metadata u tbl nextId).1
            = upsertKey "raw_file_extension_size_of_all_files" u.raw_file_size
                u.dataset_id tbl nextId)) := by
  constructor
  · intro he
    have hne : ¬(u.raw_file_size ≠ "") := by simp [he]
    by_cases h2 : u.last_size_update ≠ ""
    · constructor
      · simp only [update_metadata, if_neg hne, if_pos h2]
        exact filterKey_upsertKey_other "last_size_update"
          "raw_file_extension_size_of_all_files" u.last_size_update u.dataset_id
          tbl nextId hwf.1 (by decide)
      · intro _
        simp only [update_metadata, if_neg hne, if_pos h2]
    · constructor
      · simp only [update_metadata, if_neg hne, if_neg h2]
      · intro hc
        exact absurd hc h2
  · intro he
    have hne : ¬(u.last_size_update ≠ "") := by simp [he]
    by_cases h1 : u.raw_file_size ≠ ""
    · constructor
      · simp only [update_metadata, if_pos h1, if_neg hne]
        exact filterKey_upsertKey_other "raw_file_extension_size_of_all_files"
          "last_size_update" u.raw_file_size u.dataset_id tbl nextId hwf.1 (by decide)
      · intro _
        simp only [update_metadata, if_pos h1, if_neg hne]
    · constructor
      · simp only [update_metadata, if_neg h1, if_neg hne]
      · intro hc
        exact absurd hc h1

/-- Witness for C9: an empty `raw_file_size` leaves the existing size row
untouched while the timestamp upsert still runs. -/
theorem size_update_independent_keys_witness :
    ((update_metadata ⟨1, "", "2024-06-01"⟩
        [⟨1, 1, "raw_file_extension_size_of_all_files", "5"⟩] 2).1.1.filter
        (fun r => r.key == "raw_file_extension_size_of_all_files")
      = [⟨1, 1, "raw_file_extension_size_of_all_files", "5"⟩].filter
          (fun r => r.key == "raw_file_extension_size_of_all_files"))
    ∧ (update_metadata ⟨1, "", "2024-06-01"⟩
        [⟨1, 1, "raw_file_extension_size_of_all_files", "5"⟩] 2).1
      = upsertKey "last_size_update" "2024-06-01" 1
          [⟨1, 1, "raw_file_extension_size_of_all_files", "5"⟩] 2 :=
  ⟨((size_update_independent_keys _ 2 ⟨1, "", "2024-06-01"⟩
      ⟨by decide, by decide⟩).1 rfl).1,
   ((size_update_independent_keys _ 2 ⟨1, "", "2024-06-01"⟩
      ⟨by decide, by decide⟩).1 rfl).2 (by decide)⟩

/-! ### C10: the size_update handler returns its request body -/

/-- **C10**: on every successful call `update_metadata` returns the request
body unchanged, whatever each key's upsert did (insert, update, or skip). -/
theorem size_update_returns_body (u : MetadataUpdate)
    (tbl : List DatasetMetaRow) (nextId : Int) :
    (update_metadata u tbl nextId).2 = u := rfl

end Redmane
